import Mathlib

/-!
# twilgo: form building and three-way result decoding

A shallow embedding of `client.go`, `sms.go` and `voice.go`.

* Go pointers that may be `nil` (`*SmsResponse`, `*VoiceResponse`, `*Exception`,
  `*http.Client`) and the `error` interface are `Option`s: `none` is `nil`.
* `url.Values` (a `map[string][]string`) is an association list; `Set` replaces the
  entry of a key or adds one, so a form built from the empty map has one entry per key.
* The standard library (`net/http`, `encoding/json`, `url.Values.Encode`) is not
  part of the repository: it is taken as a parameter, `Lib`.
* Receivers and the `*CallbackParameters` argument are taken to be non-nil.
-/

set_option autoImplicit false

namespace Twilgo

/-! ## Go values -/

/-- A non-nil Go `error` value; the `error` interface is `Option GoError`. -/
abbrev GoError := String

/-- The contents of a `[]byte` or of a request body, written as text. -/
abbrev Bytes := String

/-- A Go `float32`, carried by its bit pattern and never computed with. -/
structure float32 where
  bits : Fin (2 ^ 32)
  deriving DecidableEq, Repr

/-- Go `url.Values`: each key with its list of values. -/
abbrev Values := List (String × List String)

namespace Values

/-- Go `url.Values.Set(key, value)`: the key's values become `[value]`. -/
def Set : Values → String → String → Values
  | [], key, value => [(key, [value])]
  | (k, vs) :: rest, key, value =>
    if k = key then (key, [value]) :: rest else (k, vs) :: Set rest key value

/-- Go map index `v[key]` with presence: `none` when the key is absent. -/
def lookup : Values → String → Option (List String)
  | [], _ => none
  | (k, vs) :: rest, key => if k = key then some vs else lookup rest key

end Values

/-- Go `strconv.Itoa`: base-10 rendering, with a leading minus sign when negative.
A Go `int` is a 64-bit integer; the rendering is given for every integer. -/
def Itoa (i : Int) : String :=
  if i < 0 then "-" ++ Nat.repr i.natAbs else Nat.repr i.toNat

/-- Go `http.StatusCreated`. -/
def StatusCreated : Int := 201

/-! ## client.go -/

/-- Twilio exception, `client.go` (`Exception`). -/
structure Exception where
  Status : Int := 0
  Message : String := ""
  Code : Int := 0
  MoreInfo : String := ""
  deriving DecidableEq, Repr

/-- An `http.Request` as far as `post` builds it. -/
structure Request where
  Method : String
  URL : String
  Body : Bytes
  BasicAuth : Option (String × String) := none
  Header : List (String × String) := []
  deriving DecidableEq, Repr

/-- The `res.Body` reader: the bytes it yields, then end of input or a read error. -/
structure Body where
  bytes : Bytes
  err : Option GoError := none
  deriving DecidableEq, Repr

/-- An `http.Response` as far as the library reads it. -/
structure Response where
  StatusCode : Int
  Body : Body
  deriving DecidableEq, Repr

/-- The pair `(*http.Response, error)` returned by `http.Client.Do` and by `post`.
By the contract of `net/http` a nil error comes with a non-nil response. -/
inductive HTTPResult where
  /-- The exchange completed: `(res, nil)`. -/
  | completed (res : Response)
  /-- The exchange failed: `(res, err)` with `err` non-nil; `res` is usually nil. -/
  | failed (res : Option Response) (err : GoError)
  deriving DecidableEq, Repr

/-- An `http.Client`, by what its `Do` answers. -/
structure HTTPClient where
  Do : Request → HTTPResult

/-- Client, `client.go` (`Twilio`). -/
structure Twilio where
  AccountSid : String
  AuthToken : String
  BaseURL : String
  HTTPClient : Option HTTPClient

/-! ## sms.go and voice.go: payloads -/

/-- Message resource, `sms.go` (`SmsResponse`). -/
structure SmsResponse where
  Sid : String := ""
  DateCreated : String := ""
  DateUpdate : String := ""
  DateSent : String := ""
  AccountSid : String := ""
  To : String := ""
  From : String := ""
  MediaURL : String := ""
  Body : String := ""
  Status : String := ""
  Direction : String := ""
  APIVersion : String := ""
  Price : Option float32 := none
  URL : String := ""
  deriving DecidableEq, Repr

/-- Call parameters, `voice.go` (`CallbackParameters`). -/
structure CallbackParameters where
  URL : String := ""
  Method : String := ""
  FallbackURL : String := ""
  FallbackMethod : String := ""
  StatusCallback : String := ""
  StatusCallbackMethod : String := ""
  SendDigits : String := ""
  IfMachine : String := ""
  Timeout : Int := 0
  Record : Bool := false
  deriving DecidableEq, Repr

/-- Call resource, `voice.go` (`VoiceResponse`). -/
structure VoiceResponse where
  Sid : String := ""
  DateCreated : String := ""
  DateUpdated : String := ""
  ParentCallSid : String := ""
  AccountSid : String := ""
  To : String := ""
  ToFormatted : String := ""
  From : String := ""
  FromFormatted : String := ""
  PhoneNumberSid : String := ""
  Status : String := ""
  StartTime : String := ""
  EndTime : String := ""
  Duration : Int := 0
  Price : Option float32 := none
  Direction : String := ""
  AnsweredBy : String := ""
  APIVersion : String := ""
  Annotation : String := ""
  ForwardedFrom : String := ""
  GroupSid : String := ""
  CallerName : String := ""
  URI : String := ""
  deriving DecidableEq, Repr

/-! ## The standard library, as a parameter -/

/-- The standard library functions the package calls. A JSON decoding function takes
the value its target points to before the call and gives the value afterwards
together with the error (nil on success). -/
structure Lib where
  /-- Go `url.Values.Encode`. -/
  Encode : Values → Bytes
  /-- Go `http.NewRequest(method, url, strings.NewReader(body))`: the construction
  error, `none` when the request is built. -/
  NewRequest : String → String → Bytes → Option GoError
  /-- Go `http.DefaultClient`. -/
  DefaultClient : HTTPClient
  /-- Go `json.Unmarshal(data, exception)`. -/
  UnmarshalException : Bytes → Exception → Exception × Option GoError
  /-- Go `json.Unmarshal(data, smsResponse)`. -/
  UnmarshalSmsResponse : Bytes → SmsResponse → SmsResponse × Option GoError
  /-- Go `json.NewDecoder(body).Decode(exception)`. -/
  DecodeException : Body → Exception → Exception × Option GoError
  /-- Go `json.NewDecoder(body).Decode(voiceResponse)`. -/
  DecodeVoiceResponse : Body → VoiceResponse → VoiceResponse × Option GoError

/-- Go `ioutil.ReadAll`: everything the reader yields, and the read error if it
stopped on one (`none` at end of input). -/
def ReadAll (b : Body) : Bytes × Option GoError := (b.bytes, b.err)

/-! ## client.go: functions -/

/-- Constructor from `client.go` (`NewTwilioClientCustomHTTP`). -/
def NewTwilioClientCustomHTTP (lib : Lib) (accountSid authToken : String)
    (HTTPClient : Option HTTPClient) : Twilio :=
  let twilioURL := "https://api.twilio.com/2010-04-01"
  let HTTPClient := match HTTPClient with
    | none => some lib.DefaultClient
    | some c => some c
  ⟨accountSid, authToken, twilioURL, HTTPClient⟩

/-- Constructor from `client.go` (`NewTwilioClient`). -/
def NewTwilioClient (lib : Lib) (accountSid authToken : String) : Twilio :=
  NewTwilioClientCustomHTTP lib accountSid authToken none

/-- Transport, `client.go` (`post`). -/
def post (lib : Lib) (t : Twilio) (formValues : Values) (twilioURL : String) : HTTPResult :=
  let body := lib.Encode formValues
  match lib.NewRequest "POST" twilioURL body with
  | some reqErr => .failed none reqErr
  | none =>
    let req : Request := { Method := "POST", URL := twilioURL, Body := body }
    let req := { req with BasicAuth := some (t.AccountSid, t.AuthToken) }
    let req := { req with
      Header := req.Header ++ [("Content-Type", "application/x-www-form-urlencoded")] }
    let client := match t.HTTPClient with
      | none => lib.DefaultClient
      | some c => c
    client.Do req

/-! ## sms.go: functions -/

/-- Form values initialization, `sms.go` (`initFormValues`). -/
def initFormValues (to_ body mediaURL statusCallback applicationSid : String) : Values :=
  let formValues : Values := []
  let formValues := formValues.Set "To" to_
  let formValues := formValues.Set "Body" body
  let formValues := if mediaURL ≠ "" then formValues.Set "MediaURL" mediaURL else formValues
  let formValues :=
    if statusCallback ≠ "" then formValues.Set "StatusCallback" statusCallback else formValues
  let formValues :=
    if applicationSid ≠ "" then formValues.Set "ApplicationSid" applicationSid else formValues
  formValues

/-- Core method to send a message, `sms.go` (`sendMessage`). The deferred
`res.Body.Close()` does not touch the returned values and is left out. -/
def sendMessage (lib : Lib) (t : Twilio) (formValues : Values) :
    Option SmsResponse × Option Exception × Option GoError :=
  let twilioURL := t.BaseURL ++ "/Accounts/" ++ t.AccountSid ++ "/Messages.json"
  match post lib t formValues twilioURL with
  | .failed _ postErr => (none, none, some postErr)
  | .completed res =>
    match ReadAll res.Body with
    | (_, some readErr) => (none, none, some readErr)
    | (responseBody, none) =>
      if res.StatusCode ≠ StatusCreated then
        match lib.UnmarshalException responseBody {} with
        | (_, some unMarshalErr) => (none, none, some unMarshalErr)
        | (exception, none) => (none, some exception, none)
      else
        match lib.UnmarshalSmsResponse responseBody {} with
        | (_, some unMarshalErr) => (none, none, some unMarshalErr)
        | (smsResponse, none) => (some smsResponse, none, none)

/-- The form `SendSMS` hands to `sendMessage`. -/
def SendSMSForm (from_ to_ body statusCallback applicationSid : String) : Values :=
  let formValues := initFormValues to_ body "" statusCallback applicationSid
  formValues.Set "From" from_

/-- Text message, `sms.go` (`SendSMS`). -/
def SendSMS (lib : Lib) (t : Twilio) (from_ to_ body statusCallback applicationSid : String) :
    Option SmsResponse × Option Exception × Option GoError :=
  sendMessage lib t (SendSMSForm from_ to_ body statusCallback applicationSid)

/-- The form `SendSMSWithCopilot` hands to `sendMessage`. -/
def SendSMSWithCopilotForm (messagingServiceSid to_ body statusCallback applicationSid : String) :
    Values :=
  let formValues := initFormValues to_ body "" statusCallback applicationSid
  formValues.Set "MessagingServiceSid" messagingServiceSid

/-- Text message through a messaging service, `sms.go` (`SendSMSWithCopilot`). -/
def SendSMSWithCopilot (lib : Lib) (t : Twilio)
    (messagingServiceSid to_ body statusCallback applicationSid : String) :
    Option SmsResponse × Option Exception × Option GoError :=
  sendMessage lib t
    (SendSMSWithCopilotForm messagingServiceSid to_ body statusCallback applicationSid)

/-- The form `SendMMS` hands to `sendMessage`. -/
def SendMMSForm (from_ to_ body mediaURL statusCallback applicationSid : String) : Values :=
  let formValues := initFormValues to_ body mediaURL statusCallback applicationSid
  formValues.Set "From" from_

/-- Multimedia message, `sms.go` (`SendMMS`). -/
def SendMMS (lib : Lib) (t : Twilio)
    (from_ to_ body mediaURL statusCallback applicationSid : String) :
    Option SmsResponse × Option Exception × Option GoError :=
  sendMessage lib t (SendMMSForm from_ to_ body mediaURL statusCallback applicationSid)

/-! ## voice.go: functions -/

/-- Constructor from `voice.go` (`NewCallbackParameters`). -/
def NewCallbackParameters (url : String) : CallbackParameters :=
  { URL := url, Timeout := 60 }

/-- Common part of placing a voice call, `voice.go` (`voicePost`). Both decode calls
are returned from unchecked: the freshly allocated target goes out with the error. -/
def voicePost (lib : Lib) (t : Twilio) (formValues : Values) :
    Option VoiceResponse × Option Exception × Option GoError :=
  let voiceResponse : Option VoiceResponse := none
  let exception : Option Exception := none
  let twilioURL := t.BaseURL ++ "/Accounts/" ++ t.AccountSid ++ "/Calls.json"
  match post lib t formValues twilioURL with
  | .failed _ err => (voiceResponse, exception, some err)
  | .completed res =>
    if res.StatusCode ≠ StatusCreated then
      let decoded := lib.DecodeException res.Body {}
      let exception := some decoded.1
      let err := decoded.2
      (voiceResponse, exception, err)
    else
      let decoded := lib.DecodeVoiceResponse res.Body {}
      let voiceResponse := some decoded.1
      let err := decoded.2
      (voiceResponse, exception, err)

/-- The form `CallWithURLCallbacks` hands to `voicePost`. -/
def CallWithURLCallbacksForm (from_ to_ : String) (callbackParameters : CallbackParameters) :
    Values :=
  let formValues : Values := []
  let formValues := formValues.Set "From" from_
  let formValues := formValues.Set "To" to_
  let formValues := formValues.Set "Url" callbackParameters.URL
  let formValues := if callbackParameters.Method ≠ "" then
    formValues.Set "Method" callbackParameters.Method else formValues
  let formValues := if callbackParameters.FallbackURL ≠ "" then
    formValues.Set "FallbackURL" callbackParameters.FallbackURL else formValues
  let formValues := if callbackParameters.FallbackMethod ≠ "" then
    formValues.Set "FallbackMethod" callbackParameters.FallbackMethod else formValues
  let formValues := if callbackParameters.StatusCallback ≠ "" then
    formValues.Set "StatusCallback" callbackParameters.StatusCallback else formValues
  let formValues := if callbackParameters.StatusCallbackMethod ≠ "" then
    formValues.Set "StatusCallbackMethod" callbackParameters.StatusCallbackMethod
    else formValues
  let formValues := if callbackParameters.SendDigits ≠ "" then
    formValues.Set "SendDigits" callbackParameters.SendDigits else formValues
  let formValues := if callbackParameters.IfMachine ≠ "" then
    formValues.Set "IfMachine" callbackParameters.IfMachine else formValues
  let formValues := if callbackParameters.Timeout ≠ 0 then
    formValues.Set "Timeout" (Itoa callbackParameters.Timeout) else formValues
  let formValues := if callbackParameters.Record then
    formValues.Set "Record" "true" else formValues.Set "Record" "false"
  formValues

/-- Voice call with callback URLs, `voice.go` (`CallWithURLCallbacks`). -/
def CallWithURLCallbacks (lib : Lib) (t : Twilio) (from_ to_ : String)
    (callbackParameters : CallbackParameters) :
    Option VoiceResponse × Option Exception × Option GoError :=
  voicePost lib t (CallWithURLCallbacksForm from_ to_ callbackParameters)

/-- The form `CallWithApplicationCallbacks` hands to `voicePost`. -/
def CallWithApplicationCallbacksForm (from_ to_ applicationSid : String) : Values :=
  let formValues : Values := []
  let formValues := formValues.Set "From" from_
  let formValues := formValues.Set "To" to_
  let formValues := formValues.Set "ApplicationSid" applicationSid
  formValues

/-- Voice call with an application, `voice.go` (`CallWithApplicationCallbacks`). -/
def CallWithApplicationCallbacks (lib : Lib) (t : Twilio) (from_ to_ applicationSid : String) :
    Option VoiceResponse × Option Exception × Option GoError :=
  voicePost lib t (CallWithApplicationCallbacksForm from_ to_ applicationSid)

/-! ## Reading a result triple -/

/-- Number of non-nil components of a returned triple. -/
def nonNil {α : Type} (r : Option α × Option Exception × Option GoError) : Nat :=
  (if r.1.isSome then 1 else 0) + (if r.2.1.isSome then 1 else 0)
    + (if r.2.2.isSome then 1 else 0)

/-! ## A scripted library for concrete runs -/

/-- The error body of the specification's example. -/
def invalidNumberBody : Bytes :=
  "\x7b\"status\":400,\"message\":\"invalid number\",\"code\":21211,\"more_info\":\"https://...\"\x7d"

/-- What the example error body decodes to. -/
def invalidNumber : Exception :=
  { Status := 400, Message := "invalid number", Code := 21211, MoreInfo := "https://..." }

/-- A success body of the Messages resource. -/
def queuedMessageBody : Bytes := "\x7b\"sid\":\"SM1\",\"status\":\"queued\"\x7d"

/-- What `queuedMessageBody` decodes to. -/
def queuedMessage : SmsResponse := { Sid := "SM1", Status := "queued" }

/-- A success body of the Calls resource. -/
def queuedCallBody : Bytes := "\x7b\"sid\":\"CA1\",\"status\":\"queued\"\x7d"

/-- What `queuedCallBody` decodes to. -/
def queuedCall : VoiceResponse := { Sid := "CA1", Status := "queued" }

/-- A body that is not JSON. -/
def htmlBody : Bytes := "<html>Bad Gateway</html>"

/-- A JSON decoder that knows a fixed list of documents: a known document is stored
into the target, any other input is rejected and leaves the target as it was. -/
def scriptedUnmarshal {α : Type} (known : List (Bytes × α)) (data : Bytes) (target : α) :
    α × Option GoError :=
  match known.lookup data with
  | some v => (v, none)
  | none => (target, some "invalid character '<' looking for beginning of value")

/-- The streaming form of `scriptedUnmarshal`: a read error of the body is the error. -/
def scriptedDecode {α : Type} (known : List (Bytes × α)) (body : Body) (target : α) :
    α × Option GoError :=
  match body.err with
  | some readErr => (target, some readErr)
  | none => scriptedUnmarshal known body.bytes target

/-- A library whose request construction answers `reqErr` and whose default client
answers every request with `answer`. -/
def scriptedLib (reqErr : Option GoError) (answer : HTTPResult) : Lib where
  Encode := fun _ => ""
  NewRequest := fun _ _ _ => reqErr
  DefaultClient := ⟨fun _ => answer⟩
  UnmarshalException := scriptedUnmarshal [(invalidNumberBody, invalidNumber)]
  UnmarshalSmsResponse := scriptedUnmarshal [(queuedMessageBody, queuedMessage)]
  DecodeException := scriptedDecode [(invalidNumberBody, invalidNumber)]
  DecodeVoiceResponse := scriptedDecode [(queuedCallBody, queuedCall)]

/-- A library whose default client answers every request with a completed response. -/
def cannedLib (status : Int) (body : Bytes) : Lib :=
  scriptedLib none (.completed ⟨status, ⟨body, none⟩⟩)

/-- The resource URL `sendMessage` posts to. -/
def messagesURL (t : Twilio) : String :=
  t.BaseURL ++ "/Accounts/" ++ t.AccountSid ++ "/Messages.json"

/-- The resource URL `voicePost` posts to. -/
def callsURL (t : Twilio) : String :=
  t.BaseURL ++ "/Accounts/" ++ t.AccountSid ++ "/Calls.json"

/-! ## Form lemmas -/

theorem Values.lookup_Set (v : Values) (key value k : String) :
    (v.Set key value).lookup k = if key = k then some [value] else v.lookup k := by
  induction v with
  | nil => simp [Values.Set, Values.lookup]
  | cons kv rest ih =>
    obtain ⟨k0, vs⟩ := kv
    by_cases h0 : k0 = key
    · subst h0
      by_cases h1 : k0 = k <;> simp [Values.Set, Values.lookup, h1]
    · by_cases h1 : k0 = k
      · subst h1
        simp [Values.Set, Values.lookup, h0, Ne.symm h0]
      · simp [Values.Set, Values.lookup, h0, h1, ih]

theorem Values.keys_Set (v : Values) (key value : String) :
    (v.Set key value).map Prod.fst
      = if key ∈ v.map Prod.fst then v.map Prod.fst else v.map Prod.fst ++ [key] := by
  induction v with
  | nil => simp [Values.Set]
  | cons kv rest ih =>
    obtain ⟨k0, vs⟩ := kv
    by_cases h0 : k0 = key
    · subst h0
      simp [Values.Set]
    · have h0' : ¬ key = k0 := Ne.symm h0
      by_cases hm : key ∈ rest.map Prod.fst
      · simp only [Values.Set, h0, if_false, List.map_cons, ih, hm, if_true, List.mem_cons,
          or_true]
      · simp only [Values.Set, h0, if_false, List.map_cons, ih, hm, List.mem_cons, h0',
          or_self, List.cons_append]

theorem Values.nodup_Set (v : Values) (key value : String)
    (h : (v.map Prod.fst).Nodup) : ((v.Set key value).map Prod.fst).Nodup := by
  rw [Values.keys_Set]
  split
  · exact h
  · rename_i hm
    exact List.Nodup.append h (List.nodup_singleton key) (by simpa using hm)

theorem Values.lookup_ite_Set (c : Prop) [Decidable c] (v : Values) (key value k : String) :
    (if c then v.Set key value else v).lookup k
      = if c ∧ key = k then some [value] else v.lookup k := by
  by_cases hc : c <;> simp [hc, Values.lookup_Set]

theorem Values.nodup_ite_Set (c : Prop) [Decidable c] (v : Values) (key value : String)
    (h : (v.map Prod.fst).Nodup) :
    ((if c then v.Set key value else v).map Prod.fst).Nodup := by
  by_cases hc : c
  · simpa [hc] using Values.nodup_Set v key value h
  · simpa [hc] using h

/-- Every form the package builds has one entry per key, as a Go map does. -/
theorem forms_keys_nodup (from_ to_ body mediaURL statusCallback applicationSid : String)
    (callbackParameters : CallbackParameters) :
    ((initFormValues to_ body mediaURL statusCallback applicationSid).map Prod.fst).Nodup
    ∧ ((SendSMSForm from_ to_ body statusCallback applicationSid).map Prod.fst).Nodup
    ∧ ((SendSMSWithCopilotForm from_ to_ body statusCallback applicationSid).map
        Prod.fst).Nodup
    ∧ ((SendMMSForm from_ to_ body mediaURL statusCallback applicationSid).map Prod.fst).Nodup
    ∧ ((CallWithURLCallbacksForm from_ to_ callbackParameters).map Prod.fst).Nodup
    ∧ ((CallWithApplicationCallbacksForm from_ to_ applicationSid).map Prod.fst).Nodup := by
  have init : ∀ a b c d e : String, ((initFormValues a b c d e).map Prod.fst).Nodup := by
    intro a b c d e
    unfold initFormValues
    repeat' first
      | apply Values.nodup_ite_Set
      | apply Values.nodup_Set
    exact List.nodup_nil
  refine ⟨init _ _ _ _ _, Values.nodup_Set _ _ _ (init _ _ _ _ _),
    Values.nodup_Set _ _ _ (init _ _ _ _ _), Values.nodup_Set _ _ _ (init _ _ _ _ _), ?_, ?_⟩
  · unfold CallWithURLCallbacksForm
    cases callbackParameters.Record
    all_goals
      repeat' first
        | apply Values.nodup_ite_Set
        | apply Values.nodup_Set
    all_goals exact List.nodup_nil
  · unfold CallWithApplicationCallbacksForm
    repeat' apply Values.nodup_Set
    exact List.nodup_nil

theorem Values.lookup_ite_Set_Set (c : Prop) [Decidable c] (v : Values)
    (key a b k : String) :
    (if c then v.Set key a else v.Set key b).lookup k
      = if key = k then some [if c then a else b] else v.lookup k := by
  by_cases hc : c <;> simp [hc, Values.lookup_Set]

/-- What `initFormValues` stores under each key. -/
theorem initFormValues_lookup (to_ body mediaURL statusCallback applicationSid k : String) :
    (initFormValues to_ body mediaURL statusCallback applicationSid).lookup k
      = if applicationSid ≠ "" ∧ "ApplicationSid" = k then some [applicationSid]
        else if statusCallback ≠ "" ∧ "StatusCallback" = k then some [statusCallback]
        else if mediaURL ≠ "" ∧ "MediaURL" = k then some [mediaURL]
        else if "Body" = k then some [body]
        else if "To" = k then some [to_]
        else none := by
  unfold initFormValues
  show Values.lookup (ite _ _ _) k = _
  rw [Values.lookup_ite_Set, Values.lookup_ite_Set, Values.lookup_ite_Set,
    Values.lookup_Set, Values.lookup_Set]
  rfl

/-- What the form of `CallWithURLCallbacks` stores under each key. -/
theorem CallWithURLCallbacksForm_lookup (from_ to_ : String) (p : CallbackParameters)
    (k : String) :
    (CallWithURLCallbacksForm from_ to_ p).lookup k
      = if "Record" = k then some [if p.Record = true then "true" else "false"]
        else if p.Timeout ≠ 0 ∧ "Timeout" = k then some [Itoa p.Timeout]
        else if p.IfMachine ≠ "" ∧ "IfMachine" = k then some [p.IfMachine]
        else if p.SendDigits ≠ "" ∧ "SendDigits" = k then some [p.SendDigits]
        else if p.StatusCallbackMethod ≠ "" ∧ "StatusCallbackMethod" = k
          then some [p.StatusCallbackMethod]
        else if p.StatusCallback ≠ "" ∧ "StatusCallback" = k then some [p.StatusCallback]
        else if p.FallbackMethod ≠ "" ∧ "FallbackMethod" = k then some [p.FallbackMethod]
        else if p.FallbackURL ≠ "" ∧ "FallbackURL" = k then some [p.FallbackURL]
        else if p.Method ≠ "" ∧ "Method" = k then some [p.Method]
        else if "Url" = k then some [p.URL]
        else if "To" = k then some [to_]
        else if "From" = k then some [from_]
        else none := by
  unfold CallWithURLCallbacksForm
  show Values.lookup (ite _ _ _) k = _
  rw [Values.lookup_ite_Set_Set, Values.lookup_ite_Set, Values.lookup_ite_Set,
    Values.lookup_ite_Set, Values.lookup_ite_Set, Values.lookup_ite_Set,
    Values.lookup_ite_Set, Values.lookup_ite_Set, Values.lookup_ite_Set,
    Values.lookup_Set, Values.lookup_Set, Values.lookup_Set]
  rfl

/-! ## Form building (C7 to C10) -/

/-- C7: for every from, to and CallbackParameters value, the form built by
CallWithURLCallbacks holds the key "Record" with exactly one value, "true" when
Record is true and "false" when it is false; the key is never omitted. -/
theorem CallWithURLCallbacks_Record_always_set (from_ to_ : String)
    (callbackParameters : CallbackParameters) :
    (CallWithURLCallbacksForm from_ to_ callbackParameters).lookup "Record"
      = some [if callbackParameters.Record = true then "true" else "false"] := by
  rw [CallWithURLCallbacksForm_lookup]
  simp

/-- C8: each optional string field is in the built form exactly when the supplied
value is non-empty, and then its single value is the supplied string: Method,
FallbackURL, FallbackMethod, StatusCallback, StatusCallbackMethod, SendDigits and
IfMachine for CallWithURLCallbacks; MediaURL, StatusCallback and ApplicationSid for
initFormValues. -/
theorem optional_string_fields_iff_nonempty (from_ to_ body mediaURL statusCallback
    applicationSid : String) (p : CallbackParameters) :
    ((CallWithURLCallbacksForm from_ to_ p).lookup "Method"
        = if p.Method = "" then none else some [p.Method])
    ∧ ((CallWithURLCallbacksForm from_ to_ p).lookup "FallbackURL"
        = if p.FallbackURL = "" then none else some [p.FallbackURL])
    ∧ ((CallWithURLCallbacksForm from_ to_ p).lookup "FallbackMethod"
        = if p.FallbackMethod = "" then none else some [p.FallbackMethod])
    ∧ ((CallWithURLCallbacksForm from_ to_ p).lookup "StatusCallback"
        = if p.StatusCallback = "" then none else some [p.StatusCallback])
    ∧ ((CallWithURLCallbacksForm from_ to_ p).lookup "StatusCallbackMethod"
        = if p.StatusCallbackMethod = "" then none else some [p.StatusCallbackMethod])
    ∧ ((CallWithURLCallbacksForm from_ to_ p).lookup "SendDigits"
        = if p.SendDigits = "" then none else some [p.SendDigits])
    ∧ ((CallWithURLCallbacksForm from_ to_ p).lookup "IfMachine"
        = if p.IfMachine = "" then none else some [p.IfMachine])
    ∧ ((initFormValues to_ body mediaURL statusCallback applicationSid).lookup "MediaURL"
        = if mediaURL = "" then none else some [mediaURL])
    ∧ ((initFormValues to_ body mediaURL statusCallback applicationSid).lookup
          "StatusCallback"
        = if statusCallback = "" then none else some [statusCallback])
    ∧ ((initFormValues to_ body mediaURL statusCallback applicationSid).lookup
          "ApplicationSid"
        = if applicationSid = "" then none else some [applicationSid]) := by
  simp only [CallWithURLCallbacksForm_lookup, initFormValues_lookup]
  refine ⟨?_, ?_, ?_, ?_, ?_, ?_, ?_, ?_, ?_, ?_⟩
  all_goals
    simp

/-- C9: whatever the arguments hold, empty strings included, the built form holds
every required key with exactly the supplied value: To, Body and From for SendSMS and
SendMMS; To, Body and MessagingServiceSid for SendSMSWithCopilot; From, To and Url
for CallWithURLCallbacks; From, To and ApplicationSid for
CallWithApplicationCallbacks. -/
theorem required_fields_always_set (from_ to_ body mediaURL statusCallback applicationSid
    messagingServiceSid : String) (p : CallbackParameters) :
    ((SendSMSForm from_ to_ body statusCallback applicationSid).lookup "To" = some [to_]
      ∧ (SendSMSForm from_ to_ body statusCallback applicationSid).lookup "Body"
          = some [body]
      ∧ (SendSMSForm from_ to_ body statusCallback applicationSid).lookup "From"
          = some [from_])
    ∧ ((SendMMSForm from_ to_ body mediaURL statusCallback applicationSid).lookup "To"
          = some [to_]
      ∧ (SendMMSForm from_ to_ body mediaURL statusCallback applicationSid).lookup "Body"
          = some [body]
      ∧ (SendMMSForm from_ to_ body mediaURL statusCallback applicationSid).lookup "From"
          = some [from_])
    ∧ ((SendSMSWithCopilotForm messagingServiceSid to_ body statusCallback
          applicationSid).lookup "To" = some [to_]
      ∧ (SendSMSWithCopilotForm messagingServiceSid to_ body statusCallback
          applicationSid).lookup "Body" = some [body]
      ∧ (SendSMSWithCopilotForm messagingServiceSid to_ body statusCallback
          applicationSid).lookup "MessagingServiceSid" = some [messagingServiceSid])
    ∧ ((CallWithURLCallbacksForm from_ to_ p).lookup "From" = some [from_]
      ∧ (CallWithURLCallbacksForm from_ to_ p).lookup "To" = some [to_]
      ∧ (CallWithURLCallbacksForm from_ to_ p).lookup "Url" = some [p.URL])
    ∧ ((CallWithApplicationCallbacksForm from_ to_ applicationSid).lookup "From"
          = some [from_]
      ∧ (CallWithApplicationCallbacksForm from_ to_ applicationSid).lookup "To"
          = some [to_]
      ∧ (CallWithApplicationCallbacksForm from_ to_ applicationSid).lookup "ApplicationSid"
          = some [applicationSid]) := by
  simp [SendSMSForm, SendMMSForm, SendSMSWithCopilotForm, CallWithApplicationCallbacksForm,
    Values.lookup_Set, initFormValues_lookup, CallWithURLCallbacksForm_lookup,
    Values.lookup]

/-- C10: the form built by CallWithURLCallbacks omits the key "Timeout" exactly when
Timeout is zero; for every other Timeout, negative ones included, the key holds the
base-10 rendering of the integer, so that 60 gives "60" and -5 gives "-5". -/
theorem CallWithURLCallbacks_Timeout_iff_nonzero (from_ to_ : String)
    (p : CallbackParameters) :
    (CallWithURLCallbacksForm from_ to_ p).lookup "Timeout"
        = (if p.Timeout = 0 then none else some [Itoa p.Timeout])
    ∧ (CallWithURLCallbacksForm from_ to_ (NewCallbackParameters p.URL)).lookup "Timeout"
        = some ["60"]
    ∧ (CallWithURLCallbacksForm from_ to_ { p with Timeout := -5 }).lookup "Timeout"
        = some ["-5"] := by
  simp only [CallWithURLCallbacksForm_lookup, NewCallbackParameters]
  refine ⟨?_, ?_, ?_⟩
  · simp
  · simp
    decide
  · simp
    decide

/-! ## Result decoding (C1 to C6) -/

theorem sendMessage_nonNil (lib : Lib) (t : Twilio) (formValues : Values) :
    nonNil (sendMessage lib t formValues) = 1 := by
  unfold sendMessage
  dsimp only
  split
  · rfl
  · split
    · rfl
    · split
      · split <;> rfl
      · split <;> rfl

/-- C1: whatever the post gives back (a transport error, or a completed response with
any status code and any body, unreadable or undecodable ones included), sendMessage,
and so SendSMS, SendSMSWithCopilot and SendMMS, returns a triple with exactly one
non-nil component. -/
theorem sendMessage_exactly_one_non_nil (lib : Lib) (t : Twilio) (formValues : Values)
    (a b c d e f : String) :
    nonNil (sendMessage lib t formValues) = 1
    ∧ nonNil (SendSMS lib t a b c d e) = 1
    ∧ nonNil (SendSMSWithCopilot lib t a b c d e) = 1
    ∧ nonNil (SendMMS lib t a b c d e f) = 1 :=
  ⟨sendMessage_nonNil lib t formValues, sendMessage_nonNil lib t _,
    sendMessage_nonNil lib t _, sendMessage_nonNil lib t _⟩

/-- C2: for a completed response with status 201 whose body decodes into the
endpoint's success payload, sendMessage and voicePost each return that decoded
payload, a nil Exception and a nil transport error. -/
theorem created_returns_decoded_payload (lib : Lib) (t : Twilio) (formValues : Values)
    (res : Response) (hcode : res.StatusCode = 201) :
    (∀ (data : Bytes) (smsResponse : SmsResponse),
        post lib t formValues (messagesURL t) = .completed res →
        ReadAll res.Body = (data, none) →
        lib.UnmarshalSmsResponse data {} = (smsResponse, none) →
        sendMessage lib t formValues = (some smsResponse, none, none))
    ∧ (∀ voiceResponse : VoiceResponse,
        post lib t formValues (callsURL t) = .completed res →
        lib.DecodeVoiceResponse res.Body {} = (voiceResponse, none) →
        voicePost lib t formValues = (some voiceResponse, none, none)) := by
  constructor
  · intro data smsResponse hpost hread hdec
    unfold messagesURL at hpost
    simp [sendMessage, hpost, hread, hcode, StatusCreated, hdec]
  · intro voiceResponse hpost hdec
    unfold callsURL at hpost
    simp [voicePost, hpost, hcode, StatusCreated, hdec]

/-- C3: for a completed response with any status other than 201 whose body decodes
into the Exception type, sendMessage and voicePost each return a nil success payload,
the decoded Exception with its status, message, code and more_info, and a nil
transport error. -/
theorem not_created_returns_decoded_exception (lib : Lib) (t : Twilio)
    (formValues : Values) (res : Response) (hcode : res.StatusCode ≠ 201) :
    (∀ (data : Bytes) (exception : Exception),
        post lib t formValues (messagesURL t) = .completed res →
        ReadAll res.Body = (data, none) →
        lib.UnmarshalException data {} = (exception, none) →
        sendMessage lib t formValues = (none, some exception, none))
    ∧ (∀ exception : Exception,
        post lib t formValues (callsURL t) = .completed res →
        lib.DecodeException res.Body {} = (exception, none) →
        voicePost lib t formValues = (none, some exception, none)) := by
  constructor
  · intro data exception hpost hread hdec
    unfold messagesURL at hpost
    simp [sendMessage, hpost, hread, hcode, StatusCreated, hdec]
  · intro exception hpost hdec
    unfold callsURL at hpost
    simp [voicePost, hpost, hcode, StatusCreated, hdec]

/-- C6: whenever post returns an error, sendMessage and voicePost each return a nil
success payload, a nil Exception and exactly that error, for every form and client
and whatever response, with whatever body, came along with the error. -/
theorem post_error_returned_alone (lib : Lib) (t : Twilio) (formValues : Values)
    (res : Option Response) (err : GoError) :
    (post lib t formValues (messagesURL t) = .failed res err →
        sendMessage lib t formValues = (none, none, some err))
    ∧ (post lib t formValues (callsURL t) = .failed res err →
        voicePost lib t formValues = (none, none, some err)) := by
  constructor
  · intro hpost
    unfold messagesURL at hpost
    simp [sendMessage, hpost]
  · intro hpost
    unfold callsURL at hpost
    simp [voicePost, hpost]

/-- Witness of C2: a canned 201 response with a valid success body, through SendSMS's
form and through the form of CallWithApplicationCallbacks. -/
theorem created_returns_decoded_payload_witness :
    (post (cannedLib 201 queuedMessageBody)
        (NewTwilioClient (cannedLib 201 queuedMessageBody) "AC1" "token")
        (SendSMSForm "+15005550006" "+15005550001" "hi" "" "")
        (messagesURL (NewTwilioClient (cannedLib 201 queuedMessageBody) "AC1" "token"))
      = .completed ⟨201, ⟨queuedMessageBody, none⟩⟩
      ∧ sendMessage (cannedLib 201 queuedMessageBody)
        (NewTwilioClient (cannedLib 201 queuedMessageBody) "AC1" "token")
        (SendSMSForm "+15005550006" "+15005550001" "hi" "" "")
      = (some queuedMessage, none, none))
    ∧ (post (cannedLib 201 queuedCallBody)
        (NewTwilioClient (cannedLib 201 queuedCallBody) "AC1" "token")
        (CallWithApplicationCallbacksForm "+15005550006" "+15005550001" "AP1")
        (callsURL (NewTwilioClient (cannedLib 201 queuedCallBody) "AC1" "token"))
      = .completed ⟨201, ⟨queuedCallBody, none⟩⟩
      ∧ voicePost (cannedLib 201 queuedCallBody)
        (NewTwilioClient (cannedLib 201 queuedCallBody) "AC1" "token")
        (CallWithApplicationCallbacksForm "+15005550006" "+15005550001" "AP1")
      = (some queuedCall, none, none)) :=
  ⟨⟨rfl, (created_returns_decoded_payload (cannedLib 201 queuedMessageBody)
      (NewTwilioClient (cannedLib 201 queuedMessageBody) "AC1" "token")
      (SendSMSForm "+15005550006" "+15005550001" "hi" "" "")
      ⟨201, ⟨queuedMessageBody, none⟩⟩ rfl).1 queuedMessageBody queuedMessage rfl rfl rfl⟩,
   ⟨rfl, (created_returns_decoded_payload (cannedLib 201 queuedCallBody)
      (NewTwilioClient (cannedLib 201 queuedCallBody) "AC1" "token")
      (CallWithApplicationCallbacksForm "+15005550006" "+15005550001" "AP1")
      ⟨201, ⟨queuedCallBody, none⟩⟩ rfl).2 queuedCall rfl rfl⟩⟩

/-- Witness of C3: the specification's status 400 body gives an Exception with code
21211, from sendMessage and from voicePost. -/
theorem not_created_returns_decoded_exception_witness :
    ((400 : Int) ≠ 201)
    ∧ (∃ exception, sendMessage (cannedLib 400 invalidNumberBody)
          (NewTwilioClient (cannedLib 400 invalidNumberBody) "AC1" "token")
          (SendSMSForm "+15005550006" "+15005550001" "hi" "" "")
        = (none, some exception, none) ∧ exception.Code = 21211
          ∧ exception.Status = 400 ∧ exception.Message = "invalid number"
          ∧ exception.MoreInfo = "https://...")
    ∧ (∃ exception, voicePost (cannedLib 400 invalidNumberBody)
          (NewTwilioClient (cannedLib 400 invalidNumberBody) "AC1" "token")
          (CallWithApplicationCallbacksForm "+15005550006" "+15005550001" "AP1")
        = (none, some exception, none) ∧ exception.Code = 21211
          ∧ exception.Status = 400 ∧ exception.Message = "invalid number"
          ∧ exception.MoreInfo = "https://...") :=
  ⟨by decide,
   ⟨invalidNumber, (not_created_returns_decoded_exception (cannedLib 400 invalidNumberBody)
      (NewTwilioClient (cannedLib 400 invalidNumberBody) "AC1" "token")
      (SendSMSForm "+15005550006" "+15005550001" "hi" "" "")
      ⟨400, ⟨invalidNumberBody, none⟩⟩ (by decide)).1 invalidNumberBody invalidNumber
        rfl rfl rfl, rfl, rfl, rfl, rfl⟩,
   ⟨invalidNumber, (not_created_returns_decoded_exception (cannedLib 400 invalidNumberBody)
      (NewTwilioClient (cannedLib 400 invalidNumberBody) "AC1" "token")
      (CallWithApplicationCallbacksForm "+15005550006" "+15005550001" "AP1")
      ⟨400, ⟨invalidNumberBody, none⟩⟩ (by decide)).2 invalidNumber rfl rfl,
      rfl, rfl, rfl, rfl⟩⟩

/-- Witness of C6: a refused connection, and a request that cannot be built. -/
theorem post_error_returned_alone_witness :
    (post (scriptedLib none (.failed none "connection refused"))
        (NewTwilioClient (scriptedLib none (.failed none "connection refused")) "AC1" "token")
        (SendSMSForm "+15005550006" "+15005550001" "hi" "" "")
        (messagesURL
          (NewTwilioClient (scriptedLib none (.failed none "connection refused")) "AC1"
            "token"))
      = .failed none "connection refused"
      ∧ sendMessage (scriptedLib none (.failed none "connection refused"))
        (NewTwilioClient (scriptedLib none (.failed none "connection refused")) "AC1" "token")
        (SendSMSForm "+15005550006" "+15005550001" "hi" "" "")
      = (none, none, some "connection refused"))
    ∧ (post (scriptedLib (some "missing protocol scheme")
          (.completed ⟨201, ⟨queuedCallBody, none⟩⟩))
        ⟨"AC1", "token", "://", none⟩
        (CallWithApplicationCallbacksForm "+15005550006" "+15005550001" "AP1")
        (callsURL ⟨"AC1", "token", "://", none⟩)
      = .failed none "missing protocol scheme"
      ∧ voicePost (scriptedLib (some "missing protocol scheme")
          (.completed ⟨201, ⟨queuedCallBody, none⟩⟩))
        ⟨"AC1", "token", "://", none⟩
        (CallWithApplicationCallbacksForm "+15005550006" "+15005550001" "AP1")
      = (none, none, some "missing protocol scheme")) :=
  ⟨⟨rfl, (post_error_returned_alone (scriptedLib none (.failed none "connection refused"))
      (NewTwilioClient (scriptedLib none (.failed none "connection refused")) "AC1" "token")
      (SendSMSForm "+15005550006" "+15005550001" "hi" "" "") none "connection refused").1
        rfl⟩,
   ⟨rfl, (post_error_returned_alone (scriptedLib (some "missing protocol scheme")
        (.completed ⟨201, ⟨queuedCallBody, none⟩⟩))
      ⟨"AC1", "token", "://", none⟩
      (CallWithApplicationCallbacksForm "+15005550006" "+15005550001" "AP1") none
        "missing protocol scheme").2 rfl⟩⟩

/-- C4: at a status 201 response whose body is not JSON, voicePost, reached from
CallWithApplicationCallbacks and from CallWithURLCallbacks, returns the decode error
together with a non-nil, zero-valued VoiceResponse, where the claim asks for a nil
success payload; sendMessage, at the same response, returns the error alone. -/
theorem voicePost_created_malformed_keeps_payload :
    CallWithApplicationCallbacks (cannedLib 201 htmlBody)
        (NewTwilioClient (cannedLib 201 htmlBody) "AC1" "token")
        "+15005550006" "+15005550001" "AP1"
      = (some {}, none, some "invalid character '<' looking for beginning of value")
    ∧ CallWithURLCallbacks (cannedLib 201 htmlBody)
        (NewTwilioClient (cannedLib 201 htmlBody) "AC1" "token")
        "+15005550006" "+15005550001" (NewCallbackParameters "http://example.com/twiml")
      = (some {}, none, some "invalid character '<' looking for beginning of value")
    ∧ SendSMS (cannedLib 201 htmlBody)
        (NewTwilioClient (cannedLib 201 htmlBody) "AC1" "token")
        "+15005550006" "+15005550001" "hi" "" ""
      = (none, none, some "invalid character '<' looking for beginning of value") :=
  ⟨rfl, rfl, rfl⟩

/-- C5: at a status 502 response whose body is not JSON the decode of the Exception
fails, and voicePost, reached from CallWithApplicationCallbacks and from
CallWithURLCallbacks, returns the decode error together with a non-nil, zero-valued
Exception, where the claim asks for a nil error payload; sendMessage, at the same
response, returns the error alone. -/
theorem voicePost_undecodable_exception_keeps_exception :
    post (cannedLib 502 htmlBody) (NewTwilioClient (cannedLib 502 htmlBody) "AC1" "token")
        (CallWithApplicationCallbacksForm "+15005550006" "+15005550001" "AP1")
        (callsURL (NewTwilioClient (cannedLib 502 htmlBody) "AC1" "token"))
      = .completed ⟨502, ⟨htmlBody, none⟩⟩
    ∧ ((cannedLib 502 htmlBody).DecodeException ⟨htmlBody, none⟩ {}).2 ≠ none
    ∧ CallWithApplicationCallbacks (cannedLib 502 htmlBody)
        (NewTwilioClient (cannedLib 502 htmlBody) "AC1" "token")
        "+15005550006" "+15005550001" "AP1"
      = (none, some {}, some "invalid character '<' looking for beginning of value")
    ∧ CallWithURLCallbacks (cannedLib 502 htmlBody)
        (NewTwilioClient (cannedLib 502 htmlBody) "AC1" "token")
        "+15005550006" "+15005550001" (NewCallbackParameters "http://example.com/twiml")
      = (none, some {}, some "invalid character '<' looking for beginning of value")
    ∧ SendSMS (cannedLib 502 htmlBody)
        (NewTwilioClient (cannedLib 502 htmlBody) "AC1" "token")
        "+15005550006" "+15005550001" "hi" "" ""
      = (none, none, some "invalid character '<' looking for beginning of value") :=
  ⟨rfl, by decide, rfl, rfl, rfl⟩

end Twilgo
